import Mathlib

/-!
# EBFWeatherLive: the weather query pipeline

A shallow embedding of `WeatherDataMgr` (src/EBFWeatherLive/src/WeatherDataMgr.cpp) and of
`ImageFromWeb` (src/EBFWeatherLive/src/ImageFromWeb.cpp), whose `loadImageToImageView`
`WeatherDataMgr::extractWeatherData` calls.

* A `QString` is a Lean `String`; a `QByteArray` is a list of bytes.  A `QByteArray` holds
  fewer than `2^31` bytes, so the conversion of `bytesAvailable()` to `int` is exact and the
  byte count is a `Nat`.
* The object is a record of its member variables.  Member functions take the record and
  return the updated record.
* The facilities of Qt and of Cascades that the code calls but does not define
  (`QChar::isSpace`, the `QByteArray` to `QString` conversion, `XmlDataAccess::loadFromBuffer`,
  `QUrl::isValid`) are the fields of `Platform`; every general theorem holds for every platform.
* Effects are recorded in the record: the GETs handed to the `QNetworkAccessManager`, the
  signals emitted, and the `ImageFromWeb` objects created together with the arguments of
  their `loadImageToImageView` call.
-/

namespace ebf

/-! ## Qt values -/

abbrev QString := String

abbrev QByteArray := List (Fin 256)

/-- The value held by a `QVariant`, as far as `XmlDataAccess` produces it: nothing (an invalid
variant), a text, a map from element names to variants, or a list of variants. -/
inductive QVariant where
  | invalid : QVariant
  | string : QString → QVariant
  | map : List (QString × QVariant) → QVariant
  | list : List QVariant → QVariant

abbrev QVariantMap := List (QString × QVariant)

/-- `QVariant::value<QVariantMap>()`: the map held, the empty map for every other variant. -/
def QVariant.toMap : QVariant → QVariantMap
  | .map m => m
  | _ => []

/-- `QVariant::value<QString>()`: the text held, the empty string for a variant that holds
no text. -/
def QVariant.toQString : QVariant → QString
  | .string s => s
  | _ => ""

/-- `QVariantMap::operator[]`, read: the value stored under `key`, a default-constructed
(invalid) variant when the key is absent. -/
def QVariantMap.value (m : QVariantMap) (key : QString) : QVariant :=
  (m.lookup key).getD QVariant.invalid

/-- The library facilities the code relies on. -/
structure Platform where
  /-- `QChar::isSpace()` -/
  isSpace : Char → Bool
  /-- `QString::operator=(const QByteArray &)` -/
  fromByteArray : QByteArray → QString
  /-- `bb::data::XmlDataAccess::loadFromBuffer(data, queryPath)` -/
  loadFromBuffer : QString → QString → QVariant
  /-- `QUrl(str).isValid()` -/
  urlIsValid : QString → Bool

/-- `QString::trimmed()`: the string without the whitespace at its start and at its end. -/
def QString.trimmed (P : Platform) (s : QString) : QString :=
  String.mk ((s.data.dropWhile P.isSpace).reverse.dropWhile P.isSpace).reverse

/-- `QString::isEmpty()` -/
def QString.isEmpty (s : QString) : Bool :=
  s.data.isEmpty

/-- `QString("...%1").arg(int)`, for the one pattern used: the text followed by the decimal
representation of `n`. -/
def QString.argInt (text : QString) (n : Int) : QString :=
  text ++ toString n

/-! ## Network -/

/-- The slot connected to the `finished()` signal of a reply. -/
inductive Slot where
  | weatherDataMgr : Slot
  | imageFromWeb : Slot
  deriving DecidableEq, Repr

/-- One call of `QNetworkAccessManager::get`, with the slot connected to its reply. -/
structure Get where
  url : QString
  slot : Slot
  deriving DecidableEq, Repr

/-- The `QNetworkAccessManager`: the GETs issued through it, oldest first. -/
structure QNetworkAccessManager where
  gets : List Get
  deriving DecidableEq, Repr

/-- `QNetworkAccessManager::get` followed by `connect(reply, finished(), slot)`. -/
def QNetworkAccessManager.get (m : QNetworkAccessManager) (url : QString) (slot : Slot) :
    QNetworkAccessManager :=
  { m with gets := m.gets ++ [{ url := url, slot := slot }] }

/-- A finished `QNetworkReply`. -/
structure QNetworkReply where
  /-- `error()`; `QNetworkReply::NoError` is 0 -/
  error : Nat
  /-- `attribute(QNetworkRequest::HttpStatusCodeAttribute).toInt()` -/
  httpStatus : Int
  /-- the bytes `readAll()` returns; `bytesAvailable()` is their number -/
  buffer : QByteArray
  deriving DecidableEq, Repr

def QNetworkReply.NoError : Nat := 0

/-! ## ImageFromWeb -/

/-- A pointer to an `ImageView` of the qml page; `none` is `NULL`. -/
abbrev ImageViewPtr := Option Nat

structure ImageFromWeb where
  m_pImageView : ImageViewPtr
  deriving DecidableEq, Repr

/-- The constructor: `m_pImageView(NULL)`. -/
def ImageFromWeb.new : ImageFromWeb :=
  { m_pImageView := none }

/-- `ImageFromWeb::loadImageToImageView`: the return value, the object and the network access
manager (`none` for a `NULL` manager) after the call. -/
def ImageFromWeb.loadImageToImageView (P : Platform) (self : ImageFromWeb)
    (pImageView : ImageViewPtr) (strImageUrl : QString)
    (pNetworkAccessManager : Option QNetworkAccessManager) :
    Bool × ImageFromWeb × Option QNetworkAccessManager :=
  match pNetworkAccessManager with
  | some nam =>
    if !P.urlIsValid strImageUrl then
      (false, self, some nam)
    else
      (true, { self with m_pImageView := pImageView },
        some (nam.get strImageUrl Slot.imageFromWeb))
  | none => (true, self, none)

/-- A `bb::cascades::Image` built from encoded bytes: `Image(buffer)`. -/
structure Image where
  source : QByteArray
  deriving DecidableEq, Repr

/-- The image views of the qml page: for each address, the image the view there shows
(`none` while no image has been set). -/
abbrev ImageViews := Nat → Option Image

/-- `ImageView::setImage` on the view at address `p`. -/
def ImageViews.setImage (views : ImageViews) (p : Nat) (image : Image) : ImageViews :=
  fun q => if q = p then some image else views q

/-- `ImageFromWeb::onNetworkReply`; `sender` is `qobject_cast<QNetworkReply*>(sender())`,
`none` for `NULL`.  The function changes no member, emits no signal and returns nothing: its
only effect is on the image views.  The `deleteLater()` of the reply is not recorded. -/
def ImageFromWeb.onNetworkReply (self : ImageFromWeb) (sender : Option QNetworkReply)
    (views : ImageViews) : ImageViews :=
  match sender with
  | some pNetworkReply =>
    if pNetworkReply.error = QNetworkReply.NoError then
      let iAvailable := pNetworkReply.buffer.length
      if iAvailable > 0 then
        let buffer := pNetworkReply.buffer
        let image : Image := { source := buffer }
        match self.m_pImageView with
        | some p => views.setImage p image
        | none => views
      else
        views
    else
      views
  | none => views

/-! ## WeatherDataMgr -/

inductive Signal where
  | temperatureChanged
  | weatherDescriptionChanged
  | temperatureFeelLikeChanged
  | humidityChanged
  | windDirectionChanged
  | windSpeedChanged
  | activeChanged
  | succeededChanged
  | errorChanged
  deriving DecidableEq, Repr

/-- One `new ImageFromWeb(this)` with its `loadImageToImageView` call: the arguments, the
return value and the object after the call. -/
structure ImageFetch where
  pImageView : ImageViewPtr
  strImageUrl : QString
  result : Bool
  loader : ImageFromWeb
  deriving DecidableEq, Repr

structure WeatherDataMgr where
  m_strWeatherQueryUrl : QString
  /-- `m_pRootPane->findChild<ImageView*>("weatherIconImageView")` -/
  weatherIconImageView : ImageViewPtr
  m_pNetworkAccessManager : QNetworkAccessManager
  m_strWeatherDescription : QString
  m_strTemperature : QString
  m_strTemperatureFeelLike : QString
  m_strHumidity : QString
  m_strWindDirection : QString
  m_strWindSpeed : QString
  m_bActive : Bool
  m_bSucceeded : Bool
  m_strError : QString
  /-- the signals emitted, oldest first -/
  emitted : List Signal
  /-- the image loads started, oldest first -/
  imageFetches : List ImageFetch
  deriving DecidableEq, Repr

namespace WeatherDataMgr

def setWeatherDescription (self : WeatherDataMgr) (v : QString) : WeatherDataMgr :=
  { self with m_strWeatherDescription := v,
              emitted := self.emitted ++ [Signal.weatherDescriptionChanged] }

def setTemperature (self : WeatherDataMgr) (v : QString) : WeatherDataMgr :=
  { self with m_strTemperature := v, emitted := self.emitted ++ [Signal.temperatureChanged] }

def setTemperatureFeelLike (self : WeatherDataMgr) (v : QString) : WeatherDataMgr :=
  { self with m_strTemperatureFeelLike := v,
              emitted := self.emitted ++ [Signal.temperatureFeelLikeChanged] }

def setHumidity (self : WeatherDataMgr) (v : QString) : WeatherDataMgr :=
  { self with m_strHumidity := v, emitted := self.emitted ++ [Signal.humidityChanged] }

def setWindDirection (self : WeatherDataMgr) (v : QString) : WeatherDataMgr :=
  { self with m_strWindDirection := v, emitted := self.emitted ++ [Signal.windDirectionChanged] }

def setWindSpeed (self : WeatherDataMgr) (v : QString) : WeatherDataMgr :=
  { self with m_strWindSpeed := v, emitted := self.emitted ++ [Signal.windSpeedChanged] }

def setActive (self : WeatherDataMgr) (bActive : Bool) : WeatherDataMgr :=
  { self with m_bActive := bActive, emitted := self.emitted ++ [Signal.activeChanged] }

def setSucceeded (self : WeatherDataMgr) (succeeded : Bool) : WeatherDataMgr :=
  { self with m_bSucceeded := succeeded, emitted := self.emitted ++ [Signal.succeededChanged] }

def setError (self : WeatherDataMgr) (strError : QString) : WeatherDataMgr :=
  { self with m_strError := strError, emitted := self.emitted ++ [Signal.errorChanged] }

/-- `WeatherDataMgr::reset` -/
def reset (self : WeatherDataMgr) : WeatherDataMgr :=
  let self := self.setWeatherDescription ""
  let self := self.setTemperature ""
  let self := self.setTemperatureFeelLike ""
  let self := self.setHumidity ""
  let self := self.setWindDirection ""
  let self := self.setWindSpeed ""
  let self := self.setActive false
  let self := self.setSucceeded false
  self.setError ""

/-- The constructor: a fresh network access manager, the root pane, the query URL, and
`reset()`, which overwrites every member the initialiser list leaves unset. -/
def new (weatherIconImageView : ImageViewPtr) : WeatherDataMgr :=
  reset
    { m_strWeatherQueryUrl :=
        "http://api.wunderground.com/api/9c36417de74aa4ee/geolookup/conditions/forecast/q/Germany/"
      weatherIconImageView := weatherIconImageView
      m_pNetworkAccessManager := { gets := [] }
      m_strWeatherDescription := ""
      m_strTemperature := ""
      m_strTemperatureFeelLike := ""
      m_strHumidity := ""
      m_strWindDirection := ""
      m_strWindSpeed := ""
      m_bActive := false
      m_bSucceeded := false
      m_strError := ""
      emitted := []
      imageFetches := [] }

/-- `WeatherDataMgr::requestWeatherData` -/
def requestWeatherData (P : Platform) (self : WeatherDataMgr) (strCity : QString) :
    WeatherDataMgr :=
  if (strCity.trimmed P).isEmpty then
    let self := self.setError "Please select a city."
    let self := self.setActive false
    self.setSucceeded false
  else
    let self := self.reset
    let self := self.setActive true
    let strUrl := self.m_strWeatherQueryUrl ++ strCity ++ ".xml"
    { self with
      m_pNetworkAccessManager := self.m_pNetworkAccessManager.get strUrl Slot.weatherDataMgr }

/-- `WeatherDataMgr::extractWeatherData` (the debug print of the response is left out).  The
manager handed to `loadImageToImageView` is the member, created in the constructor and never
`NULL`. -/
def extractWeatherData (P : Platform) (self : WeatherDataMgr) (strResponse : QString) :
    WeatherDataMgr :=
  let currentObservationQVariant := P.loadFromBuffer strResponse "/response/current_observation"
  let currentObservationMap := currentObservationQVariant.toMap
  let self := self.setWeatherDescription (currentObservationMap.value "weather").toQString
  let self := self.setTemperature (currentObservationMap.value "temp_c").toQString
  let self := self.setTemperatureFeelLike (currentObservationMap.value "feelslike_c").toQString
  let self := self.setHumidity (currentObservationMap.value "relative_humidity").toQString
  let self := self.setWindDirection (currentObservationMap.value "wind_dir").toQString
  let self := self.setWindSpeed (currentObservationMap.value "wind_kph").toQString
  let pImageView := self.weatherIconImageView
  let pImageFromWeb := ImageFromWeb.new
  let strIconUrl := (currentObservationMap.value "icon_url").toQString
  let r := pImageFromWeb.loadImageToImageView P pImageView strIconUrl
    (some self.m_pNetworkAccessManager)
  let fetch : ImageFetch :=
    { pImageView := pImageView, strImageUrl := strIconUrl, result := r.1, loader := r.2.1 }
  let self : WeatherDataMgr :=
    { self with
      m_pNetworkAccessManager := r.2.2.getD self.m_pNetworkAccessManager
      imageFetches := self.imageFetches ++ [fetch] }
  self.setActive false

/-- `WeatherDataMgr::onNetworkReply`; `sender` is `qobject_cast<QNetworkReply*>(sender())`,
`none` for `NULL`.  The `deleteLater()` of the reply changes nothing recorded here. -/
def onNetworkReply (P : Platform) (self : WeatherDataMgr) (sender : Option QNetworkReply) :
    WeatherDataMgr :=
  let self := self.setSucceeded true
  let strResponse : QString := ""
  let (self, strResponse) :=
    match sender with
    | some networkReply =>
      if networkReply.error = QNetworkReply.NoError then
        let iAvailable := networkReply.buffer.length
        if iAvailable > 0 then
          let strResponse := P.fromByteArray networkReply.buffer
          (self.extractWeatherData P strResponse, strResponse)
        else
          (self, strResponse)
      else
        let httpStatus := networkReply.httpStatus
        let self := self.setError (QString.argInt "Http Error: " httpStatus)
        (self.setSucceeded false, strResponse)
    | none => (self, strResponse)
  if (strResponse.trimmed P).isEmpty then
    let self := self.setError "Unable to retrieve the http response"
    self.setSucceeded false
  else
    self

end WeatherDataMgr

/-! ## The published state and the event loop -/

/-- The values the nine `Q_PROPERTY` getters return. -/
structure Published where
  weatherDescription : QString
  temperature : QString
  temperatureFeelLike : QString
  humidity : QString
  windDirection : QString
  windSpeed : QString
  active : Bool
  succeeded : Bool
  error : QString
  deriving DecidableEq, Repr

def WeatherDataMgr.published (self : WeatherDataMgr) : Published :=
  { weatherDescription := self.m_strWeatherDescription
    temperature := self.m_strTemperature
    temperatureFeelLike := self.m_strTemperatureFeelLike
    humidity := self.m_strHumidity
    windDirection := self.m_strWindDirection
    windSpeed := self.m_strWindSpeed
    active := self.m_bActive
    succeeded := self.m_bSucceeded
    error := self.m_strError }

/-- The number of GETs issued so far whose reply is connected to
`WeatherDataMgr::onNetworkReply`. -/
def WeatherDataMgr.weatherGets (self : WeatherDataMgr) : Nat :=
  (self.m_pNetworkAccessManager.gets.filter (fun g => g.slot = Slot.weatherDataMgr)).length

/-- What happens to the object: the qml page calls `requestWeatherData`, or the reply to one
of the weather GETs finishes. -/
inductive Op where
  | request : QString → Op
  | finished : QNetworkReply → Op
  deriving DecidableEq, Repr

/-- The object in the event loop: `delivered` counts the weather replies that have finished. -/
structure Running where
  mgr : WeatherDataMgr
  delivered : Nat
  deriving DecidableEq, Repr

/-- The state after `main` has constructed the object. -/
def Running.start (weatherIconImageView : ImageViewPtr) : Running :=
  { mgr := WeatherDataMgr.new weatherIconImageView, delivered := 0 }

/-- One turn of the event loop.  A reply finishes only for a weather GET that was issued and
has not finished yet; then the signal runs `onNetworkReply` with that reply as sender. -/
def Running.step (P : Platform) (c : Running) : Op → Option Running
  | .request strCity => some { c with mgr := c.mgr.requestWeatherData P strCity }
  | .finished reply =>
    if c.delivered < c.mgr.weatherGets then
      some { mgr := c.mgr.onNetworkReply P (some reply), delivered := c.delivered + 1 }
    else
      none

/-- The turns of `ops` in order; `none` when a reply finishes that no GET is waiting for. -/
def Running.run (P : Platform) : Running → List Op → Option Running
  | c, [] => some c
  | c, op :: ops => (c.step P op).bind (fun c => Running.run P c ops)

/-- One turn when every query is awaited: `requestWeatherData` is not called while the
reply to a weather GET is still to finish. -/
def Running.stepAwaited (P : Platform) (c : Running) : Op → Option Running
  | .request strCity =>
    if c.delivered < c.mgr.weatherGets then none else c.step P (.request strCity)
  | .finished reply => c.step P (.finished reply)

/-- The turns of `ops` in order when every query is awaited. -/
def Running.runAwaited (P : Platform) : Running → List Op → Option Running
  | c, [] => some c
  | c, op :: ops => (c.stepAwaited P op).bind (fun c => Running.runAwaited P c ops)

/-- No stale weather data while a query runs: `active = true` comes with six empty fields. -/
def WeatherDataMgr.NoStaleData (self : WeatherDataMgr) : Prop :=
  self.m_bActive = true →
    self.m_strWeatherDescription = "" ∧ self.m_strTemperature = "" ∧
    self.m_strTemperatureFeelLike = "" ∧ self.m_strHumidity = "" ∧
    self.m_strWindDirection = "" ∧ self.m_strWindSpeed = ""

/-- The six weather fields, in the order of the `Q_PROPERTY` declarations. -/
def WeatherDataMgr.weatherFields (self : WeatherDataMgr) : List QString :=
  [self.m_strWeatherDescription, self.m_strTemperature, self.m_strTemperatureFeelLike,
   self.m_strHumidity, self.m_strWindDirection, self.m_strWindSpeed]

/-- What holds between the turns when every query is awaited: at most one reply is still to
finish, `error` is empty while it is, and `succeeded = true` comes with an empty `error`. -/
def Running.Awaited (c : Running) : Prop :=
  c.delivered ≤ c.mgr.weatherGets ∧
  (c.mgr.m_bSucceeded = true → c.mgr.m_strError = "") ∧
  (c.delivered < c.mgr.weatherGets →
    c.mgr.weatherGets = c.delivered + 1 ∧ c.mgr.m_strError = "")

/-! ## A concrete platform, for evaluation -/

/-- Latin-1 decoding up to the first NUL byte. -/
def latin1 (b : QByteArray) : QString :=
  String.mk ((b.takeWhile (fun x => x != 0)).map (fun x => Char.ofNat x.val))

/-- The bytes of a text of Latin-1 characters. -/
def toLatin1 (s : QString) : QByteArray :=
  s.data.map (fun c => Fin.ofNat c.toNat)

/-- A response with all seven leaves. -/
def sampleXml : QString :=
  "<response><current_observation><weather>Clear</weather><temp_c>21</temp_c>" ++
  "<feelslike_c>20</feelslike_c><relative_humidity>40%</relative_humidity>" ++
  "<wind_dir>NW</wind_dir><wind_kph>9</wind_kph><icon_url>http://i/c.gif</icon_url>" ++
  "</current_observation></response>"

def sampleObservation : QVariantMap :=
  [("weather", .string "Clear"), ("temp_c", .string "21"), ("feelslike_c", .string "20"),
   ("relative_humidity", .string "40%"), ("wind_dir", .string "NW"), ("wind_kph", .string "9"),
   ("icon_url", .string "http://i/c.gif")]

/-- A response without the `wind_dir` leaf. -/
def sampleXmlNoWindDir : QString :=
  "<response><current_observation><weather>Rain</weather><temp_c>8</temp_c>" ++
  "<feelslike_c>5</feelslike_c><relative_humidity>93%</relative_humidity>" ++
  "<wind_kph>30</wind_kph><icon_url>http://i/r.gif</icon_url>" ++
  "</current_observation></response>"

def sampleObservationNoWindDir : QVariantMap :=
  [("weather", .string "Rain"), ("temp_c", .string "8"), ("feelslike_c", .string "5"),
   ("relative_humidity", .string "93%"), ("wind_kph", .string "30"),
   ("icon_url", .string "http://i/r.gif")]

/-- A second response with all seven leaves, each with another text than in `sampleXml`. -/
def sampleXmlSnow : QString :=
  "<response><current_observation><weather>Snow</weather><temp_c>-3</temp_c>" ++
  "<feelslike_c>-7</feelslike_c><relative_humidity>81%</relative_humidity>" ++
  "<wind_dir>East</wind_dir><wind_kph>17</wind_kph><icon_url>http://i/s.gif</icon_url>" ++
  "</current_observation></response>"

def sampleObservationSnow : QVariantMap :=
  [("weather", .string "Snow"), ("temp_c", .string "-3"), ("feelslike_c", .string "-7"),
   ("relative_humidity", .string "81%"), ("wind_dir", .string "East"),
   ("wind_kph", .string "17"), ("icon_url", .string "http://i/s.gif")]

/-- A parser that knows the sample documents and rejects every other text. -/
def sampleLoadFromBuffer (data queryPath : QString) : QVariant :=
  if queryPath = "/response/current_observation" then
    if data = sampleXml then .map sampleObservation
    else if data = sampleXmlNoWindDir then .map sampleObservationNoWindDir
    else if data = sampleXmlSnow then .map sampleObservationSnow
    else .invalid
  else .invalid

def testPlatform : Platform :=
  { isSpace := fun c => c == ' ' || c == '\t' || c == '\n' || c == '\r'
    fromByteArray := latin1
    loadFromBuffer := sampleLoadFromBuffer
    urlIsValid := fun s => !s.data.isEmpty }

/-- A reply that carries `sampleXml`. -/
def sampleReply : QNetworkReply :=
  { error := QNetworkReply.NoError, httpStatus := 200, buffer := toLatin1 sampleXml }

/-- A reply that carries `sampleXmlNoWindDir`. -/
def sampleReplyNoWindDir : QNetworkReply :=
  { error := QNetworkReply.NoError, httpStatus := 200, buffer := toLatin1 sampleXmlNoWindDir }

/-- A reply that carries `sampleXmlSnow`. -/
def sampleReplySnow : QNetworkReply :=
  { error := QNetworkReply.NoError, httpStatus := 200, buffer := toLatin1 sampleXmlSnow }

/-- A reply with a transport error and HTTP status 500 (`UnknownContentError` is 299). -/
def errorReply500 : QNetworkReply :=
  { error := 299, httpStatus := 500, buffer := [] }

/-- A reply without transport error and without body. -/
def emptyReply : QNetworkReply :=
  { error := QNetworkReply.NoError, httpStatus := 200, buffer := [] }

/-- A reply without transport error whose body is no XML. -/
def garbageReply : QNetworkReply :=
  { error := QNetworkReply.NoError, httpStatus := 200, buffer := toLatin1 "not xml" }

/-- A reply to an image GET: the first bytes of a GIF file. -/
def imageReply : QNetworkReply :=
  { error := QNetworkReply.NoError, httpStatus := 200, buffer := [71, 73, 70, 56, 57, 97] }

/-- A reply to an image GET that has a transport error although bytes came with it
(`ContentNotFoundError` is 203). -/
def imageReplyNotFound : QNetworkReply :=
  { error := 203, httpStatus := 404, buffer := [60, 104, 49, 62] }

/-- Image views of which the one at address 1 already shows an image. -/
def sampleViews : ImageViews :=
  fun q => if q = 1 then some { source := [1, 2, 3] } else none

/-- The object after a completed query for Bochum that was answered with `sampleReply`. -/
def sampleSettled : WeatherDataMgr :=
  ((WeatherDataMgr.new (some 1)).requestWeatherData testPlatform "Bochum").onNetworkReply
    testPlatform (some sampleReply)


/-- The state after two calls, one reply finished well-formed, and a third call. -/
def sampleRequested : Running :=
  { mgr :=
      ((((WeatherDataMgr.new (some 1)).requestWeatherData testPlatform "Bochum").requestWeatherData
        testPlatform "Essen").onNetworkReply testPlatform (some sampleReply)).requestWeatherData
        testPlatform "Herne"
    delivered := 1 }

/-! ## Lemmas on the library model -/

theorem QString.trimmed_empty (P : Platform) : QString.isEmpty (QString.trimmed P "") = true := by
  rfl

/-! ## The four ways through `onNetworkReply` -/

theorem onNetworkReply_of_error (P : Platform) (s : WeatherDataMgr) (r : QNetworkReply)
    (he : r.error ≠ QNetworkReply.NoError) :
    s.onNetworkReply P (some r) =
      ((((s.setSucceeded true).setError (QString.argInt "Http Error: " r.httpStatus)).setSucceeded
        false).setError "Unable to retrieve the http response").setSucceeded false := by
  simp [WeatherDataMgr.onNetworkReply, he, QString.trimmed_empty]

theorem onNetworkReply_of_no_bytes (P : Platform) (s : WeatherDataMgr) (r : QNetworkReply)
    (he : r.error = QNetworkReply.NoError) (hb : r.buffer = []) :
    s.onNetworkReply P (some r) =
      ((s.setSucceeded true).setError "Unable to retrieve the http response").setSucceeded
        false := by
  simp [WeatherDataMgr.onNetworkReply, he, hb, QString.trimmed_empty]

theorem onNetworkReply_of_blank (P : Platform) (s : WeatherDataMgr) (r : QNetworkReply)
    (he : r.error = QNetworkReply.NoError) (hb : r.buffer ≠ [])
    (ht : QString.isEmpty (QString.trimmed P (P.fromByteArray r.buffer)) = true) :
    s.onNetworkReply P (some r) =
      ((((s.setSucceeded true).extractWeatherData P (P.fromByteArray r.buffer)).setError
        "Unable to retrieve the http response").setSucceeded false) := by
  have hl : 0 < r.buffer.length := List.length_pos.mpr hb
  simp [WeatherDataMgr.onNetworkReply, he, hl, ht]

theorem onNetworkReply_of_text (P : Platform) (s : WeatherDataMgr) (r : QNetworkReply)
    (he : r.error = QNetworkReply.NoError) (hb : r.buffer ≠ [])
    (ht : QString.isEmpty (QString.trimmed P (P.fromByteArray r.buffer)) = false) :
    s.onNetworkReply P (some r) =
      (s.setSucceeded true).extractWeatherData P (P.fromByteArray r.buffer) := by
  have hl : 0 < r.buffer.length := List.length_pos.mpr hb
  simp [WeatherDataMgr.onNetworkReply, he, hl, ht]

/-! ## `requestWeatherData` -/

/-- C2: a city whose trimmed form is empty leaves `error = "Please select a city."`,
`succeeded = false`, `active = false`, and hands no GET to the network access manager (no
image load is started either). -/
theorem requestWeatherData_blank_city (P : Platform) (s : WeatherDataMgr) (strCity : QString)
    (h : QString.isEmpty (QString.trimmed P strCity) = true) :
    (s.requestWeatherData P strCity).m_strError = "Please select a city." ∧
    (s.requestWeatherData P strCity).m_bSucceeded = false ∧
    (s.requestWeatherData P strCity).m_bActive = false ∧
    (s.requestWeatherData P strCity).m_pNetworkAccessManager = s.m_pNetworkAccessManager ∧
    (s.requestWeatherData P strCity).imageFetches = s.imageFetches := by
  simp [WeatherDataMgr.requestWeatherData, h, WeatherDataMgr.setError, WeatherDataMgr.setActive,
    WeatherDataMgr.setSucceeded]

theorem requestWeatherData_blank_city_witness :
    QString.isEmpty (QString.trimmed testPlatform " \t ") = true ∧
    ((sampleSettled.requestWeatherData testPlatform " \t ").m_strError = "Please select a city." ∧
     (sampleSettled.requestWeatherData testPlatform " \t ").m_bSucceeded = false ∧
     (sampleSettled.requestWeatherData testPlatform " \t ").m_bActive = false ∧
     (sampleSettled.requestWeatherData testPlatform " \t ").m_pNetworkAccessManager
       = sampleSettled.m_pNetworkAccessManager ∧
     (sampleSettled.requestWeatherData testPlatform " \t ").imageFetches
       = sampleSettled.imageFetches) :=
  ⟨by decide, requestWeatherData_blank_city testPlatform sampleSettled " \t " (by decide)⟩

/-- C3: a city whose trimmed form is not empty leaves the six weather fields empty and
`active = true`, and hands exactly one GET to the network access manager: the GETs issued
are the earlier ones followed by the one for the query URL of the city. -/
theorem requestWeatherData_city (P : Platform) (s : WeatherDataMgr) (strCity : QString)
    (h : QString.isEmpty (QString.trimmed P strCity) = false) :
    (s.requestWeatherData P strCity).m_strWeatherDescription = "" ∧
    (s.requestWeatherData P strCity).m_strTemperature = "" ∧
    (s.requestWeatherData P strCity).m_strTemperatureFeelLike = "" ∧
    (s.requestWeatherData P strCity).m_strHumidity = "" ∧
    (s.requestWeatherData P strCity).m_strWindDirection = "" ∧
    (s.requestWeatherData P strCity).m_strWindSpeed = "" ∧
    (s.requestWeatherData P strCity).m_bActive = true ∧
    (s.requestWeatherData P strCity).m_pNetworkAccessManager.gets =
      s.m_pNetworkAccessManager.gets ++
        [{ url := s.m_strWeatherQueryUrl ++ strCity ++ ".xml", slot := Slot.weatherDataMgr }] := by
  simp [WeatherDataMgr.requestWeatherData, h, WeatherDataMgr.reset,
    WeatherDataMgr.setWeatherDescription, WeatherDataMgr.setTemperature,
    WeatherDataMgr.setTemperatureFeelLike, WeatherDataMgr.setHumidity,
    WeatherDataMgr.setWindDirection, WeatherDataMgr.setWindSpeed, WeatherDataMgr.setError,
    WeatherDataMgr.setActive, WeatherDataMgr.setSucceeded, QNetworkAccessManager.get]

theorem requestWeatherData_city_witness :
    QString.isEmpty (QString.trimmed testPlatform " Bochum") = false ∧
    ((sampleSettled.requestWeatherData testPlatform " Bochum").m_strWeatherDescription = "" ∧
     (sampleSettled.requestWeatherData testPlatform " Bochum").m_strTemperature = "" ∧
     (sampleSettled.requestWeatherData testPlatform " Bochum").m_strTemperatureFeelLike = "" ∧
     (sampleSettled.requestWeatherData testPlatform " Bochum").m_strHumidity = "" ∧
     (sampleSettled.requestWeatherData testPlatform " Bochum").m_strWindDirection = "" ∧
     (sampleSettled.requestWeatherData testPlatform " Bochum").m_strWindSpeed = "" ∧
     (sampleSettled.requestWeatherData testPlatform " Bochum").m_bActive = true ∧
     (sampleSettled.requestWeatherData testPlatform " Bochum").m_pNetworkAccessManager.gets =
       sampleSettled.m_pNetworkAccessManager.gets ++
         [{ url := sampleSettled.m_strWeatherQueryUrl ++ " Bochum" ++ ".xml",
            slot := Slot.weatherDataMgr }]) :=
  ⟨by decide, requestWeatherData_city testPlatform sampleSettled " Bochum" (by decide)⟩

/-! ## `onNetworkReply` -/

/-- C1: for a reply with a transport error and HTTP status 500, `onNetworkReply` ends with
`succeeded = false`, but the error text it leaves is "Unable to retrieve the http response":
the text "Http Error: 500" written in the error branch is overwritten by the check of the
(still empty) response string at the end of the function. -/
theorem onNetworkReply_http_error_500_overwritten (P : Platform) (s : WeatherDataMgr) :
    (s.onNetworkReply P (some errorReply500)).m_bSucceeded = false ∧
    (s.onNetworkReply P (some errorReply500)).m_strError
      = "Unable to retrieve the http response" ∧
    (s.onNetworkReply P (some errorReply500)).m_strError ≠ "Http Error: 500" := by
  have he : errorReply500.error ≠ QNetworkReply.NoError := by decide
  rw [onNetworkReply_of_error P s errorReply500 he]
  refine ⟨rfl, rfl, ?_⟩
  show "Unable to retrieve the http response" ≠ "Http Error: 500"
  decide

/-- The text the error branch writes for status 500 is "Http Error: 500". -/
theorem argInt_http_error_500 : QString.argInt "Http Error: " 500 = "Http Error: 500" := by
  decide

/-- Every reply with a transport error ends with the text of the final check. -/
theorem onNetworkReply_transport_error (P : Platform) (s : WeatherDataMgr) (r : QNetworkReply)
    (he : r.error ≠ QNetworkReply.NoError) :
    (s.onNetworkReply P (some r)).m_bSucceeded = false ∧
    (s.onNetworkReply P (some r)).m_strError = "Unable to retrieve the http response" ∧
    (s.onNetworkReply P (some r)).m_bActive = s.m_bActive := by
  rw [onNetworkReply_of_error P s r he]
  exact ⟨rfl, rfl, rfl⟩

/-- The fields `extractWeatherData` leaves. -/
theorem extractWeatherData_fields (P : Platform) (s : WeatherDataMgr) (strResponse : QString) :
    (s.extractWeatherData P strResponse).published =
      { weatherDescription :=
          ((P.loadFromBuffer strResponse "/response/current_observation").toMap.value
            "weather").toQString
        temperature :=
          ((P.loadFromBuffer strResponse "/response/current_observation").toMap.value
            "temp_c").toQString
        temperatureFeelLike :=
          ((P.loadFromBuffer strResponse "/response/current_observation").toMap.value
            "feelslike_c").toQString
        humidity :=
          ((P.loadFromBuffer strResponse "/response/current_observation").toMap.value
            "relative_humidity").toQString
        windDirection :=
          ((P.loadFromBuffer strResponse "/response/current_observation").toMap.value
            "wind_dir").toQString
        windSpeed :=
          ((P.loadFromBuffer strResponse "/response/current_observation").toMap.value
            "wind_kph").toQString
        active := false
        succeeded := s.m_bSucceeded
        error := s.m_strError } := by
  rfl

/-- The image loads `extractWeatherData` leaves: one more, for the text under `icon_url`. -/
theorem extractWeatherData_imageFetches (P : Platform) (s : WeatherDataMgr)
    (strResponse : QString) :
    (s.extractWeatherData P strResponse).imageFetches.map ImageFetch.strImageUrl =
      s.imageFetches.map ImageFetch.strImageUrl ++
        [((P.loadFromBuffer strResponse "/response/current_observation").toMap.value
            "icon_url").toQString] := by
  simp [WeatherDataMgr.extractWeatherData, WeatherDataMgr.setActive,
    WeatherDataMgr.setWeatherDescription, WeatherDataMgr.setTemperature,
    WeatherDataMgr.setTemperatureFeelLike, WeatherDataMgr.setHumidity,
    WeatherDataMgr.setWindDirection, WeatherDataMgr.setWindSpeed]

theorem QVariantMap.value_of_text (m : QVariantMap) (key text : QString)
    (h : m.lookup key = some (QVariant.string text)) : (m.value key).toQString = text := by
  simp [QVariantMap.value, h, QVariant.toQString]

theorem QVariantMap.value_of_absent (m : QVariantMap) (key : QString)
    (h : m.lookup key = none) : (m.value key).toQString = "" := by
  simp [QVariantMap.value, h, QVariant.toQString]

/-- The published state `requestWeatherData` leaves for a city that is not blank. -/
theorem requestWeatherData_published (P : Platform) (s : WeatherDataMgr) (strCity : QString)
    (h : QString.isEmpty (QString.trimmed P strCity) = false) :
    (s.requestWeatherData P strCity).published =
      { weatherDescription := "", temperature := "", temperatureFeelLike := "", humidity := "",
        windDirection := "", windSpeed := "", active := true, succeeded := false, error := "" } ∧
    (s.requestWeatherData P strCity).imageFetches = s.imageFetches := by
  simp [WeatherDataMgr.requestWeatherData, h, WeatherDataMgr.reset, WeatherDataMgr.published,
    WeatherDataMgr.setWeatherDescription, WeatherDataMgr.setTemperature,
    WeatherDataMgr.setTemperatureFeelLike, WeatherDataMgr.setHumidity,
    WeatherDataMgr.setWindDirection, WeatherDataMgr.setWindSpeed, WeatherDataMgr.setError,
    WeatherDataMgr.setActive, WeatherDataMgr.setSucceeded]

/-- C4: a reply without transport error, with a body that is not blank and whose
`/response/current_observation` node has the seven leaves, processed in the state
`requestWeatherData` left for a city that is not blank, ends with `succeeded = true`,
`error = ""`, the six fields equal to the texts of their leaves, `active = false`, and
exactly one more image load, called with the text of `icon_url`. -/
theorem onNetworkReply_well_formed (P : Platform) (s : WeatherDataMgr) (strCity : QString)
    (r : QNetworkReply) (m : QVariantMap)
    (weather temp_c feelslike_c relative_humidity wind_dir wind_kph icon_url : QString)
    (hc : QString.isEmpty (QString.trimmed P strCity) = false)
    (he : r.error = QNetworkReply.NoError) (hb : r.buffer ≠ [])
    (ht : QString.isEmpty (QString.trimmed P (P.fromByteArray r.buffer)) = false)
    (hp : P.loadFromBuffer (P.fromByteArray r.buffer) "/response/current_observation"
      = QVariant.map m)
    (h1 : m.lookup "weather" = some (QVariant.string weather))
    (h2 : m.lookup "temp_c" = some (QVariant.string temp_c))
    (h3 : m.lookup "feelslike_c" = some (QVariant.string feelslike_c))
    (h4 : m.lookup "relative_humidity" = some (QVariant.string relative_humidity))
    (h5 : m.lookup "wind_dir" = some (QVariant.string wind_dir))
    (h6 : m.lookup "wind_kph" = some (QVariant.string wind_kph))
    (h7 : m.lookup "icon_url" = some (QVariant.string icon_url)) :
    ((s.requestWeatherData P strCity).onNetworkReply P (some r)).m_bSucceeded = true ∧
    ((s.requestWeatherData P strCity).onNetworkReply P (some r)).m_strError = "" ∧
    ((s.requestWeatherData P strCity).onNetworkReply P (some r)).m_strWeatherDescription
      = weather ∧
    ((s.requestWeatherData P strCity).onNetworkReply P (some r)).m_strTemperature = temp_c ∧
    ((s.requestWeatherData P strCity).onNetworkReply P (some r)).m_strTemperatureFeelLike
      = feelslike_c ∧
    ((s.requestWeatherData P strCity).onNetworkReply P (some r)).m_strHumidity
      = relative_humidity ∧
    ((s.requestWeatherData P strCity).onNetworkReply P (some r)).m_strWindDirection
      = wind_dir ∧
    ((s.requestWeatherData P strCity).onNetworkReply P (some r)).m_strWindSpeed = wind_kph ∧
    ((s.requestWeatherData P strCity).onNetworkReply P (some r)).m_bActive = false ∧
    ((s.requestWeatherData P strCity).onNetworkReply P (some r)).imageFetches.map
        ImageFetch.strImageUrl
      = s.imageFetches.map ImageFetch.strImageUrl ++ [icon_url] := by
  obtain ⟨hq, hf⟩ := requestWeatherData_published P s strCity hc
  have hx := extractWeatherData_fields P ((s.requestWeatherData P strCity).setSucceeded true)
    (P.fromByteArray r.buffer)
  have hi := extractWeatherData_imageFetches P
    ((s.requestWeatherData P strCity).setSucceeded true) (P.fromByteArray r.buffer)
  have herr : ((s.requestWeatherData P strCity).setSucceeded true).m_strError = "" :=
    congrArg Published.error hq
  have hfe : ((s.requestWeatherData P strCity).setSucceeded true).imageFetches = s.imageFetches :=
    hf
  rw [onNetworkReply_of_text P _ r he hb ht]
  rw [hp] at hx hi
  simp only [QVariant.toMap, QVariantMap.value_of_text m _ _ h1,
    QVariantMap.value_of_text m _ _ h2, QVariantMap.value_of_text m _ _ h3,
    QVariantMap.value_of_text m _ _ h4, QVariantMap.value_of_text m _ _ h5,
    QVariantMap.value_of_text m _ _ h6, herr] at hx
  simp only [QVariant.toMap, QVariantMap.value_of_text m _ _ h7, hfe] at hi
  refine ⟨?_, ?_, ?_, ?_, ?_, ?_, ?_, ?_, ?_, hi⟩
  · exact congrArg Published.succeeded hx
  · exact congrArg Published.error hx
  · exact congrArg Published.weatherDescription hx
  · exact congrArg Published.temperature hx
  · exact congrArg Published.temperatureFeelLike hx
  · exact congrArg Published.humidity hx
  · exact congrArg Published.windDirection hx
  · exact congrArg Published.windSpeed hx
  · exact congrArg Published.active hx

set_option maxRecDepth 100000 in
theorem onNetworkReply_well_formed_witness :
    ((sampleSettled.requestWeatherData testPlatform "Essen").onNetworkReply testPlatform
      (some sampleReply)).m_bSucceeded = true ∧
    ((sampleSettled.requestWeatherData testPlatform "Essen").onNetworkReply testPlatform
      (some sampleReply)).m_strError = "" ∧
    ((sampleSettled.requestWeatherData testPlatform "Essen").onNetworkReply testPlatform
      (some sampleReply)).m_strWeatherDescription = "Clear" ∧
    ((sampleSettled.requestWeatherData testPlatform "Essen").onNetworkReply testPlatform
      (some sampleReply)).m_strTemperature = "21" ∧
    ((sampleSettled.requestWeatherData testPlatform "Essen").onNetworkReply testPlatform
      (some sampleReply)).m_strTemperatureFeelLike = "20" ∧
    ((sampleSettled.requestWeatherData testPlatform "Essen").onNetworkReply testPlatform
      (some sampleReply)).m_strHumidity = "40%" ∧
    ((sampleSettled.requestWeatherData testPlatform "Essen").onNetworkReply testPlatform
      (some sampleReply)).m_strWindDirection = "NW" ∧
    ((sampleSettled.requestWeatherData testPlatform "Essen").onNetworkReply testPlatform
      (some sampleReply)).m_strWindSpeed = "9" ∧
    ((sampleSettled.requestWeatherData testPlatform "Essen").onNetworkReply testPlatform
      (some sampleReply)).m_bActive = false ∧
    ((sampleSettled.requestWeatherData testPlatform "Essen").onNetworkReply testPlatform
      (some sampleReply)).imageFetches.map ImageFetch.strImageUrl
      = sampleSettled.imageFetches.map ImageFetch.strImageUrl ++ ["http://i/c.gif"] :=
  onNetworkReply_well_formed testPlatform sampleSettled "Essen" sampleReply sampleObservation
    "Clear" "21" "20" "40%" "NW" "9" "http://i/c.gif" (by decide) (by decide) (by decide)
    (by decide) (by rfl) (by rfl) (by rfl) (by rfl) (by rfl) (by rfl) (by rfl) (by rfl)

/-- C5: a reply without transport error whose body is empty (no bytes) or blank ends with
`succeeded = false` and `error = "Unable to retrieve the http response"`, whatever the state
before; the `succeeded = true` written first is overridden. -/
theorem onNetworkReply_empty_body (P : Platform) (s : WeatherDataMgr) (r : QNetworkReply)
    (he : r.error = QNetworkReply.NoError)
    (hb : r.buffer = [] ∨ QString.isEmpty (QString.trimmed P (P.fromByteArray r.buffer)) = true) :
    (s.onNetworkReply P (some r)).m_bSucceeded = false ∧
    (s.onNetworkReply P (some r)).m_strError = "Unable to retrieve the http response" := by
  by_cases hn : r.buffer = []
  · rw [onNetworkReply_of_no_bytes P s r he hn]
    exact ⟨rfl, rfl⟩
  · rcases hb with hb | hb
    · exact absurd hb hn
    · rw [onNetworkReply_of_blank P s r he hn hb]
      exact ⟨rfl, rfl⟩

theorem onNetworkReply_empty_body_witness :
    (sampleSettled.onNetworkReply testPlatform
      (some { error := QNetworkReply.NoError, httpStatus := 200, buffer := [32, 10] })).m_bSucceeded
      = false ∧
    (sampleSettled.onNetworkReply testPlatform
      (some { error := QNetworkReply.NoError, httpStatus := 200, buffer := [32, 10] })).m_strError
      = "Unable to retrieve the http response" :=
  onNetworkReply_empty_body testPlatform sampleSettled
    { error := QNetworkReply.NoError, httpStatus := 200, buffer := [32, 10] } (by decide)
    (Or.inr (by decide))

/-! ## `succeeded` and `error` along the event loop -/

theorem extractWeatherData_error (P : Platform) (s : WeatherDataMgr) (strResponse : QString) :
    (s.extractWeatherData P strResponse).m_strError = s.m_strError :=
  congrArg Published.error (extractWeatherData_fields P s strResponse)

theorem extractWeatherData_succeeded (P : Platform) (s : WeatherDataMgr)
    (strResponse : QString) :
    (s.extractWeatherData P strResponse).m_bSucceeded = s.m_bSucceeded :=
  congrArg Published.succeeded (extractWeatherData_fields P s strResponse)

theorem extractWeatherData_active (P : Platform) (s : WeatherDataMgr) (strResponse : QString) :
    (s.extractWeatherData P strResponse).m_bActive = false :=
  congrArg Published.active (extractWeatherData_fields P s strResponse)

theorem onNetworkReply_succeeded_error (P : Platform) (s : WeatherDataMgr) (r : QNetworkReply)
    (h : (s.onNetworkReply P (some r)).m_bSucceeded = true) :
    (s.onNetworkReply P (some r)).m_strError = s.m_strError := by
  by_cases he : r.error = QNetworkReply.NoError
  · by_cases hb : r.buffer = []
    · rw [onNetworkReply_of_no_bytes P s r he hb] at h
      exact Bool.noConfusion (h : false = true)
    · by_cases ht : QString.isEmpty (QString.trimmed P (P.fromByteArray r.buffer)) = true
      · rw [onNetworkReply_of_blank P s r he hb ht] at h
        exact Bool.noConfusion (h : false = true)
      · rw [onNetworkReply_of_text P s r he hb (Bool.eq_false_iff.mpr ht)]
        exact extractWeatherData_error P (s.setSucceeded true) (P.fromByteArray r.buffer)
  · rw [onNetworkReply_of_error P s r he] at h
    exact Bool.noConfusion (h : false = true)

theorem extractWeatherData_weatherGets (P : Platform) (s : WeatherDataMgr)
    (strResponse : QString) :
    (s.extractWeatherData P strResponse).weatherGets = s.weatherGets := by
  simp only [WeatherDataMgr.extractWeatherData, WeatherDataMgr.weatherGets,
    ImageFromWeb.loadImageToImageView, WeatherDataMgr.setActive,
    WeatherDataMgr.setWeatherDescription, WeatherDataMgr.setTemperature,
    WeatherDataMgr.setTemperatureFeelLike, WeatherDataMgr.setHumidity,
    WeatherDataMgr.setWindDirection, WeatherDataMgr.setWindSpeed]
  split <;> simp [QNetworkAccessManager.get]

theorem weatherGets_setSucceeded (s : WeatherDataMgr) (b : Bool) :
    (s.setSucceeded b).weatherGets = s.weatherGets :=
  rfl

theorem weatherGets_setError (s : WeatherDataMgr) (strError : QString) :
    (s.setError strError).weatherGets = s.weatherGets :=
  rfl

theorem onNetworkReply_weatherGets (P : Platform) (s : WeatherDataMgr) (r : QNetworkReply) :
    (s.onNetworkReply P (some r)).weatherGets = s.weatherGets := by
  by_cases he : r.error = QNetworkReply.NoError
  · by_cases hb : r.buffer = []
    · rw [onNetworkReply_of_no_bytes P s r he hb]
      simp only [weatherGets_setSucceeded, weatherGets_setError]
    · by_cases ht : QString.isEmpty (QString.trimmed P (P.fromByteArray r.buffer)) = true
      · rw [onNetworkReply_of_blank P s r he hb ht]
        simp only [weatherGets_setSucceeded, weatherGets_setError,
          extractWeatherData_weatherGets]
      · rw [onNetworkReply_of_text P s r he hb (Bool.eq_false_iff.mpr ht)]
        simp only [weatherGets_setSucceeded, extractWeatherData_weatherGets]
  · rw [onNetworkReply_of_error P s r he]
    simp only [weatherGets_setSucceeded, weatherGets_setError]

theorem requestWeatherData_weatherGets_blank (P : Platform) (s : WeatherDataMgr)
    (strCity : QString) (h : QString.isEmpty (QString.trimmed P strCity) = true) :
    (s.requestWeatherData P strCity).weatherGets = s.weatherGets := by
  simp [WeatherDataMgr.weatherGets, WeatherDataMgr.requestWeatherData, h,
    WeatherDataMgr.setError, WeatherDataMgr.setActive, WeatherDataMgr.setSucceeded]

theorem requestWeatherData_weatherGets_city (P : Platform) (s : WeatherDataMgr)
    (strCity : QString) (h : QString.isEmpty (QString.trimmed P strCity) = false) :
    (s.requestWeatherData P strCity).weatherGets = s.weatherGets + 1 := by
  simp [WeatherDataMgr.weatherGets, WeatherDataMgr.requestWeatherData, h, WeatherDataMgr.reset,
    WeatherDataMgr.setWeatherDescription, WeatherDataMgr.setTemperature,
    WeatherDataMgr.setTemperatureFeelLike, WeatherDataMgr.setHumidity,
    WeatherDataMgr.setWindDirection, WeatherDataMgr.setWindSpeed, WeatherDataMgr.setError,
    WeatherDataMgr.setActive, WeatherDataMgr.setSucceeded, QNetworkAccessManager.get]

theorem requestWeatherData_succeeded_blank (P : Platform) (s : WeatherDataMgr)
    (strCity : QString) (h : QString.isEmpty (QString.trimmed P strCity) = true) :
    (s.requestWeatherData P strCity).m_bSucceeded = false := by
  simp [WeatherDataMgr.requestWeatherData, h, WeatherDataMgr.setSucceeded]

theorem Running.awaited_start (v : ImageViewPtr) : (Running.start v).Awaited := by
  refine ⟨Nat.zero_le _, fun _ => rfl, fun h => ?_⟩
  exact absurd (h : 0 < 0) (Nat.lt_irrefl 0)

theorem Running.awaited_step (P : Platform) (c c1 : Running) (op : Op) (hc : c.Awaited)
    (h : c.stepAwaited P op = some c1) : c1.Awaited := by
  obtain ⟨hle, hs, hp⟩ := hc
  cases op with
  | request strCity =>
    by_cases hd : c.delivered < c.mgr.weatherGets
    · simp [Running.stepAwaited, hd] at h
    · simp only [Running.stepAwaited, hd, if_false, Running.step, Option.some.injEq] at h
      subst h
      have heq : c.delivered = c.mgr.weatherGets := Nat.le_antisymm hle (Nat.not_lt.mp hd)
      cases hb : QString.isEmpty (QString.trimmed P strCity)
      · obtain ⟨hq, _⟩ := requestWeatherData_published P c.mgr strCity hb
        have hg := requestWeatherData_weatherGets_city P c.mgr strCity hb
        have herr : (c.mgr.requestWeatherData P strCity).m_strError = "" :=
          congrArg Published.error hq
        refine ⟨?_, fun _ => herr, fun _ => ⟨?_, herr⟩⟩
        · show c.delivered ≤ (c.mgr.requestWeatherData P strCity).weatherGets
          omega
        · show (c.mgr.requestWeatherData P strCity).weatherGets = c.delivered + 1
          omega
      · have hg := requestWeatherData_weatherGets_blank P c.mgr strCity hb
        have hf := requestWeatherData_succeeded_blank P c.mgr strCity hb
        refine ⟨?_, fun hs1 => ?_, fun hlt => ?_⟩
        · show c.delivered ≤ (c.mgr.requestWeatherData P strCity).weatherGets
          omega
        · have hs2 : (c.mgr.requestWeatherData P strCity).m_bSucceeded = true := hs1
          rw [hf] at hs2
          exact absurd hs2 (by decide)
        · have hlt2 : c.delivered < (c.mgr.requestWeatherData P strCity).weatherGets := hlt
          omega
  | finished reply =>
    by_cases hd : c.delivered < c.mgr.weatherGets
    · simp only [Running.stepAwaited, Running.step, hd, if_true, Option.some.injEq] at h
      subst h
      obtain ⟨hone, herr⟩ := hp hd
      have hg := onNetworkReply_weatherGets P c.mgr reply
      refine ⟨?_, fun hs1 => ?_, fun hlt => ?_⟩
      · show c.delivered + 1 ≤ (c.mgr.onNetworkReply P (some reply)).weatherGets
        omega
      · exact (onNetworkReply_succeeded_error P c.mgr reply hs1).trans herr
      · have hlt2 : c.delivered + 1 < (c.mgr.onNetworkReply P (some reply)).weatherGets := hlt
        omega
    · simp [Running.stepAwaited, Running.step, hd] at h

theorem Running.awaited_run (P : Platform) (ops : List Op) :
    ∀ c c1 : Running, c.Awaited → Running.runAwaited P c ops = some c1 → c1.Awaited := by
  induction ops with
  | nil =>
    intro c c1 hc h
    simp only [Running.runAwaited, Option.some.injEq] at h
    exact h ▸ hc
  | cons op ops ih =>
    intro c c1 hc h
    simp only [Running.runAwaited] at h
    cases hstep : c.stepAwaited P op with
    | none => simp [hstep] at h
    | some c2 =>
      rw [hstep] at h
      exact ih c2 c1 (Running.awaited_step P c c2 op hc hstep) h

/-- C6, as the code has it: from the constructor, along every sequence of `requestWeatherData`
calls and `onNetworkReply` completions in which `requestWeatherData` is not called while the
reply to an earlier call is still to finish, `succeeded = true` implies that `error` is
empty. -/
theorem succeeded_implies_no_error_awaited (P : Platform) (v : ImageViewPtr) (ops : List Op)
    (c : Running) (h : Running.runAwaited P (Running.start v) ops = some c)
    (hs : c.mgr.m_bSucceeded = true) : c.mgr.m_strError = "" :=
  (Running.awaited_run P ops (Running.start v) c (Running.awaited_start v) h).2.1 hs

set_option maxRecDepth 100000 in
theorem succeeded_implies_no_error_awaited_witness :
    sampleSettled.m_bSucceeded = true ∧ sampleSettled.m_strError = "" :=
  ⟨by decide,
   succeeded_implies_no_error_awaited testPlatform (some 1)
     [Op.request "Bochum", Op.finished sampleReply]
     { mgr := sampleSettled, delivered := 1 } (by decide) (by decide)⟩

set_option maxRecDepth 100000 in
/-- C6 fails when a reply finishes after a later call: after two calls, the reply of one
finishing with a transport error and the reply of the other finishing well-formed, the
object has `succeeded = true` together with a non-empty `error`. -/
theorem succeeded_with_error_after_late_reply :
    (Running.run testPlatform (Running.start (some 1))
      [Op.request "Bochum", Op.request "Essen", Op.finished errorReply500,
       Op.finished sampleReply]).map (fun c => (c.mgr.m_bSucceeded, c.mgr.m_strError))
      = some (true, "Unable to retrieve the http response") := by
  decide

/-! ## `active` after a reply -/

/-- C7: after `requestWeatherData` for a city that is not blank, a reply with a transport
error leaves `active = true`, and so does a reply without error and without bytes:
`onNetworkReply` clears `active` only inside `extractWeatherData`, which these two paths
do not reach. -/
theorem active_stuck_after_failed_reply (s : WeatherDataMgr) :
    ((s.requestWeatherData testPlatform "Bochum").onNetworkReply testPlatform
      (some errorReply500)).m_bActive = true ∧
    ((s.requestWeatherData testPlatform "Bochum").onNetworkReply testPlatform
      (some emptyReply)).m_bActive = true := by
  have hc : QString.isEmpty (QString.trimmed testPlatform "Bochum") = false := by decide
  have ha : (s.requestWeatherData testPlatform "Bochum").m_bActive = true :=
    congrArg Published.active (requestWeatherData_published testPlatform s "Bochum" hc).1
  have he : errorReply500.error ≠ QNetworkReply.NoError := by decide
  rw [onNetworkReply_of_error testPlatform _ errorReply500 he,
    onNetworkReply_of_no_bytes testPlatform _ emptyReply rfl rfl]
  exact ⟨ha, ha⟩

/-- The replies after which `active = false`: those without transport error that carry
at least one byte. -/
theorem onNetworkReply_active (P : Platform) (s : WeatherDataMgr) (r : QNetworkReply) :
    (s.onNetworkReply P (some r)).m_bActive =
      (if r.error = QNetworkReply.NoError ∧ r.buffer ≠ [] then false else s.m_bActive) := by
  by_cases he : r.error = QNetworkReply.NoError
  · by_cases hb : r.buffer = []
    · rw [onNetworkReply_of_no_bytes P s r he hb]
      simp [hb, WeatherDataMgr.setSucceeded, WeatherDataMgr.setError]
    · by_cases ht : QString.isEmpty (QString.trimmed P (P.fromByteArray r.buffer)) = true
      · rw [onNetworkReply_of_blank P s r he hb ht, if_pos ⟨he, hb⟩]
        exact extractWeatherData_active P (s.setSucceeded true) (P.fromByteArray r.buffer)
      · rw [onNetworkReply_of_text P s r he hb (Bool.eq_false_iff.mpr ht), if_pos ⟨he, hb⟩]
        exact extractWeatherData_active P (s.setSucceeded true) (P.fromByteArray r.buffer)
  · rw [onNetworkReply_of_error P s r he]
    simp [he, WeatherDataMgr.setSucceeded, WeatherDataMgr.setError]

/-! ## `succeeded` after a reply -/

/-- C8, as the code has it: after `onNetworkReply`, `succeeded = true` exactly when the reply
has no transport error and its body is not empty and not blank; whether the body parses
plays no part. -/
theorem onNetworkReply_succeeded_iff (P : Platform) (s : WeatherDataMgr) (r : QNetworkReply) :
    (s.onNetworkReply P (some r)).m_bSucceeded = true ↔
      (r.error = QNetworkReply.NoError ∧ r.buffer ≠ [] ∧
        QString.isEmpty (QString.trimmed P (P.fromByteArray r.buffer)) = false) := by
  by_cases he : r.error = QNetworkReply.NoError
  · by_cases hb : r.buffer = []
    · rw [onNetworkReply_of_no_bytes P s r he hb]
      simp [hb, WeatherDataMgr.setSucceeded]
    · by_cases ht : QString.isEmpty (QString.trimmed P (P.fromByteArray r.buffer)) = true
      · rw [onNetworkReply_of_blank P s r he hb ht]
        simp [ht, WeatherDataMgr.setSucceeded]
      · have hf := Bool.eq_false_iff.mpr ht
        rw [onNetworkReply_of_text P s r he hb hf, extractWeatherData_succeeded]
        exact ⟨fun _ => ⟨he, hb, hf⟩, fun _ => rfl⟩
  · rw [onNetworkReply_of_error P s r he]
    simp [he, WeatherDataMgr.setSucceeded]

set_option maxRecDepth 100000 in
/-- C8 fails for a body that does not parse: the reply has no transport error, its body is
not blank, the parser yields no map, and `onNetworkReply` ends with `succeeded = true`
(from a state with `succeeded = false`). -/
theorem unparseable_reply_succeeds :
    garbageReply.error = QNetworkReply.NoError ∧
    garbageReply.buffer ≠ [] ∧
    QString.isEmpty (QString.trimmed testPlatform (testPlatform.fromByteArray garbageReply.buffer))
      = false ∧
    testPlatform.loadFromBuffer (testPlatform.fromByteArray garbageReply.buffer)
      "/response/current_observation" = QVariant.invalid ∧
    ((WeatherDataMgr.new (some 1)).requestWeatherData testPlatform "Bochum").m_bSucceeded
      = false ∧
    (((WeatherDataMgr.new (some 1)).requestWeatherData testPlatform "Bochum").onNetworkReply
      testPlatform (some garbageReply)).m_bSucceeded = true := by
  refine ⟨by decide, by decide, by decide, by rfl, by decide, by decide⟩

/-! ## Missing leaves -/

/-- C9: for a reply without transport error, with a body that is not blank and whose
`/response/current_observation` node is the map `m`, `onNetworkReply` ends with
`succeeded = true` and each of the six fields holding what `m` gives for its leaf: the text
of the leaf when the leaf is present with a text, the empty string when the leaf is absent
(for `wind_dir` as for every other leaf, and for any number of absent leaves). -/
theorem onNetworkReply_missing_leaves (P : Platform) (s : WeatherDataMgr) (r : QNetworkReply)
    (m : QVariantMap)
    (he : r.error = QNetworkReply.NoError) (hb : r.buffer ≠ [])
    (ht : QString.isEmpty (QString.trimmed P (P.fromByteArray r.buffer)) = false)
    (hp : P.loadFromBuffer (P.fromByteArray r.buffer) "/response/current_observation"
      = QVariant.map m) :
    (s.onNetworkReply P (some r)).m_bSucceeded = true ∧
    (s.onNetworkReply P (some r)).m_strWeatherDescription = (m.value "weather").toQString ∧
    (s.onNetworkReply P (some r)).m_strTemperature = (m.value "temp_c").toQString ∧
    (s.onNetworkReply P (some r)).m_strTemperatureFeelLike
      = (m.value "feelslike_c").toQString ∧
    (s.onNetworkReply P (some r)).m_strHumidity = (m.value "relative_humidity").toQString ∧
    (s.onNetworkReply P (some r)).m_strWindDirection = (m.value "wind_dir").toQString ∧
    (s.onNetworkReply P (some r)).m_strWindSpeed = (m.value "wind_kph").toQString ∧
    (∀ key : QString, m.lookup key = none → (m.value key).toQString = "") ∧
    (∀ key text : QString, m.lookup key = some (QVariant.string text) →
      (m.value key).toQString = text) := by
  have hx := extractWeatherData_fields P (s.setSucceeded true) (P.fromByteArray r.buffer)
  rw [hp] at hx
  rw [onNetworkReply_of_text P s r he hb ht]
  refine ⟨?_, ?_, ?_, ?_, ?_, ?_, ?_, ?_, ?_⟩
  · exact congrArg Published.succeeded hx
  · exact congrArg Published.weatherDescription hx
  · exact congrArg Published.temperature hx
  · exact congrArg Published.temperatureFeelLike hx
  · exact congrArg Published.humidity hx
  · exact congrArg Published.windDirection hx
  · exact congrArg Published.windSpeed hx
  · exact fun key h => QVariantMap.value_of_absent m key h
  · exact fun key text h => QVariantMap.value_of_text m key text h

set_option maxRecDepth 100000 in
theorem onNetworkReply_missing_leaves_witness :
    sampleObservationNoWindDir.lookup "wind_dir" = none ∧
    (sampleSettled.onNetworkReply testPlatform (some sampleReplyNoWindDir)).m_bSucceeded
      = true ∧
    (sampleSettled.onNetworkReply testPlatform (some sampleReplyNoWindDir)).m_strWindDirection
      = "" ∧
    (sampleSettled.onNetworkReply testPlatform (some sampleReplyNoWindDir)).m_strTemperature
      = "8" :=
  have h := onNetworkReply_missing_leaves testPlatform sampleSettled sampleReplyNoWindDir
    sampleObservationNoWindDir (by decide) (by decide) (by decide) (by rfl)
  ⟨by rfl, h.1, h.2.2.2.2.2.1.trans (h.2.2.2.2.2.2.2.1 "wind_dir" (by rfl)),
   h.2.2.1.trans (h.2.2.2.2.2.2.2.2 "temp_c" "8" (by rfl))⟩

/-! ## The outcome of a query -/

theorem onNetworkReply_of_null (P : Platform) (s : WeatherDataMgr) :
    s.onNetworkReply P none =
      ((s.setSucceeded true).setError "Unable to retrieve the http response").setSucceeded
        false := by
  simp [WeatherDataMgr.onNetworkReply, QString.trimmed_empty]

theorem published_setSucceeded (s : WeatherDataMgr) (b : Bool) :
    (s.setSucceeded b).published = { s.published with succeeded := b } :=
  rfl

theorem published_setError (s : WeatherDataMgr) (strError : QString) :
    (s.setError strError).published = { s.published with error := strError } :=
  rfl

theorem extractWeatherData_published_congr (P : Platform) (s t : WeatherDataMgr)
    (strResponse : QString) (h : s.published = t.published) :
    (s.extractWeatherData P strResponse).published
      = (t.extractWeatherData P strResponse).published := by
  rw [extractWeatherData_fields, extractWeatherData_fields]
  have h1 : s.m_bSucceeded = t.m_bSucceeded := congrArg Published.succeeded h
  have h2 : s.m_strError = t.m_strError := congrArg Published.error h
  rw [h1, h2]

/-- The published state after `onNetworkReply` is determined by the published state before
and the reply. -/
theorem onNetworkReply_published_congr (P : Platform) (s t : WeatherDataMgr)
    (sender : Option QNetworkReply) (h : s.published = t.published) :
    (s.onNetworkReply P sender).published = (t.onNetworkReply P sender).published := by
  have h0 : (s.setSucceeded true).published = (t.setSucceeded true).published := by
    rw [published_setSucceeded, published_setSucceeded, h]
  cases sender with
  | none =>
    rw [onNetworkReply_of_null, onNetworkReply_of_null]
    simp only [published_setSucceeded, published_setError, h]
  | some r =>
    by_cases he : r.error = QNetworkReply.NoError
    · by_cases hb : r.buffer = []
      · rw [onNetworkReply_of_no_bytes P s r he hb, onNetworkReply_of_no_bytes P t r he hb]
        simp only [published_setSucceeded, published_setError, h]
      · by_cases ht : QString.isEmpty (QString.trimmed P (P.fromByteArray r.buffer)) = true
        · rw [onNetworkReply_of_blank P s r he hb ht, onNetworkReply_of_blank P t r he hb ht]
          simp only [published_setSucceeded, published_setError,
            extractWeatherData_published_congr P _ _ _ h0]
        · have hf := Bool.eq_false_iff.mpr ht
          rw [onNetworkReply_of_text P s r he hb hf, onNetworkReply_of_text P t r he hb hf]
          exact extractWeatherData_published_congr P _ _ _ h0
    · rw [onNetworkReply_of_error P s r he, onNetworkReply_of_error P t r he]
      simp only [published_setSucceeded, published_setError, h]

/-- C10: for two prior states, a city that is not blank and a reply, `requestWeatherData`
followed by `onNetworkReply` on that reply gives the same published state (the six fields,
`active`, `succeeded`, `error`) from both: the outcome of a completed query depends on the
reply only. -/
theorem query_outcome_independent_of_prior_state (P : Platform) (s1 s2 : WeatherDataMgr)
    (strCity : QString) (r : QNetworkReply)
    (hc : QString.isEmpty (QString.trimmed P strCity) = false) :
    ((s1.requestWeatherData P strCity).onNetworkReply P (some r)).published =
      ((s2.requestWeatherData P strCity).onNetworkReply P (some r)).published := by
  apply onNetworkReply_published_congr
  rw [(requestWeatherData_published P s1 strCity hc).1,
    (requestWeatherData_published P s2 strCity hc).1]

set_option maxRecDepth 100000 in
theorem query_outcome_independent_of_prior_state_witness :
    QString.isEmpty (QString.trimmed testPlatform "Bochum") = false ∧
    sampleSettled.published ≠ (WeatherDataMgr.new none).published ∧
    ((sampleSettled.requestWeatherData testPlatform "Bochum").onNetworkReply testPlatform
      (some sampleReplyNoWindDir)).published =
    (((WeatherDataMgr.new none).requestWeatherData testPlatform "Bochum").onNetworkReply
      testPlatform (some sampleReplyNoWindDir)).published :=
  ⟨by decide, by decide,
   query_outcome_independent_of_prior_state testPlatform sampleSettled (WeatherDataMgr.new none)
     "Bochum" sampleReplyNoWindDir (by decide)⟩

/-! ## No stale data while a query runs -/

theorem active_setSucceeded (s : WeatherDataMgr) (b : Bool) :
    (s.setSucceeded b).m_bActive = s.m_bActive :=
  rfl

theorem active_setError (s : WeatherDataMgr) (strError : QString) :
    (s.setError strError).m_bActive = s.m_bActive :=
  rfl

theorem noStaleData_setSucceeded (s : WeatherDataMgr) (b : Bool) :
    (s.setSucceeded b).NoStaleData ↔ s.NoStaleData :=
  Iff.rfl

theorem noStaleData_setError (s : WeatherDataMgr) (strError : QString) :
    (s.setError strError).NoStaleData ↔ s.NoStaleData :=
  Iff.rfl

theorem noStaleData_new (v : ImageViewPtr) : (WeatherDataMgr.new v).NoStaleData :=
  fun h => Bool.noConfusion (h : false = true)

theorem noStaleData_of_inactive (s : WeatherDataMgr) (h : s.m_bActive = false) :
    s.NoStaleData := by
  intro ha
  rw [h] at ha
  exact Bool.noConfusion ha

/-- Whatever the state before, `requestWeatherData` leaves no stale data. -/
theorem noStaleData_requestWeatherData (P : Platform) (s : WeatherDataMgr) (strCity : QString) :
    (s.requestWeatherData P strCity).NoStaleData := by
  by_cases hb : QString.isEmpty (QString.trimmed P strCity) = true
  · apply noStaleData_of_inactive
    simp [WeatherDataMgr.requestWeatherData, hb, WeatherDataMgr.setError,
      WeatherDataMgr.setActive, WeatherDataMgr.setSucceeded]
  · have hq := (requestWeatherData_published P s strCity (Bool.eq_false_iff.mpr hb)).1
    intro _
    exact ⟨congrArg Published.weatherDescription hq, congrArg Published.temperature hq,
      congrArg Published.temperatureFeelLike hq, congrArg Published.humidity hq,
      congrArg Published.windDirection hq, congrArg Published.windSpeed hq⟩

/-- The slot `onNetworkReply` keeps it that way: it either leaves the fields and `active` as
they are, or ends with `active = false`. -/
theorem noStaleData_onNetworkReply (P : Platform) (s : WeatherDataMgr) (r : QNetworkReply)
    (h : s.NoStaleData) : (s.onNetworkReply P (some r)).NoStaleData := by
  by_cases he : r.error = QNetworkReply.NoError
  · by_cases hb : r.buffer = []
    · rw [onNetworkReply_of_no_bytes P s r he hb]
      simp only [noStaleData_setSucceeded, noStaleData_setError]
      exact h
    · apply noStaleData_of_inactive
      by_cases ht : QString.isEmpty (QString.trimmed P (P.fromByteArray r.buffer)) = true
      · rw [onNetworkReply_of_blank P s r he hb ht, active_setSucceeded, active_setError,
          extractWeatherData_active]
      · rw [onNetworkReply_of_text P s r he hb (Bool.eq_false_iff.mpr ht),
          extractWeatherData_active]
  · rw [onNetworkReply_of_error P s r he]
    simp only [noStaleData_setSucceeded, noStaleData_setError]
    exact h

theorem Running.noStaleData_step (P : Platform) (c c1 : Running) (op : Op)
    (hc : c.mgr.NoStaleData) (h : c.step P op = some c1) : c1.mgr.NoStaleData := by
  cases op with
  | request strCity =>
    simp only [Running.step, Option.some.injEq] at h
    subst h
    exact noStaleData_requestWeatherData P c.mgr strCity
  | finished reply =>
    by_cases hd : c.delivered < c.mgr.weatherGets
    · simp only [Running.step, hd, if_true, Option.some.injEq] at h
      subst h
      exact noStaleData_onNetworkReply P c.mgr reply hc
    · simp [Running.step, hd] at h

theorem Running.noStaleData_run (P : Platform) (ops : List Op) :
    ∀ c c1 : Running, c.mgr.NoStaleData → Running.run P c ops = some c1 →
      c1.mgr.NoStaleData := by
  induction ops with
  | nil =>
    intro c c1 hc h
    simp only [Running.run, Option.some.injEq] at h
    exact h ▸ hc
  | cons op ops ih =>
    intro c c1 hc h
    simp only [Running.run] at h
    cases hstep : c.step P op with
    | none => simp [hstep] at h
    | some c2 =>
      rw [hstep] at h
      exact ih c2 c1 (Running.noStaleData_step P c c2 op hc hstep) h

/-- C11: in every state reached from the constructor by a sequence of `requestWeatherData`
calls and `onNetworkReply` completions, the replies finishing in any order and at any time
after their request, `active = true` implies that the six weather fields are empty. -/
theorem active_implies_fields_empty (P : Platform) (v : ImageViewPtr) (ops : List Op)
    (c : Running) (h : Running.run P (Running.start v) ops = some c)
    (ha : c.mgr.m_bActive = true) :
    c.mgr.m_strWeatherDescription = "" ∧ c.mgr.m_strTemperature = "" ∧
    c.mgr.m_strTemperatureFeelLike = "" ∧ c.mgr.m_strHumidity = "" ∧
    c.mgr.m_strWindDirection = "" ∧ c.mgr.m_strWindSpeed = "" :=
  Running.noStaleData_run P ops (Running.start v) c (noStaleData_new v) h ha

set_option maxRecDepth 100000 in
theorem active_implies_fields_empty_witness :
    Running.run testPlatform (Running.start (some 1))
      [Op.request "Bochum", Op.request "Essen", Op.finished sampleReply, Op.request "Herne"]
      = some sampleRequested ∧
    sampleRequested.mgr.m_bActive = true ∧
    (sampleRequested.mgr.m_strWeatherDescription = "" ∧
     sampleRequested.mgr.m_strTemperature = "" ∧
     sampleRequested.mgr.m_strTemperatureFeelLike = "" ∧
     sampleRequested.mgr.m_strHumidity = "" ∧
     sampleRequested.mgr.m_strWindDirection = "" ∧
     sampleRequested.mgr.m_strWindSpeed = "") :=
  ⟨by decide, by decide,
   active_implies_fields_empty testPlatform (some 1)
     [Op.request "Bochum", Op.request "Essen", Op.finished sampleReply, Op.request "Herne"]
     sampleRequested (by decide) (by decide)⟩

/-! ## `ImageFromWeb` -/

/-- C12, as the code has it: for a URL that is not valid, `loadImageToImageView` called with
a network access manager returns false, leaves the GETs of the manager as they are and
leaves the object as it is (the image view is not recorded); called with a `NULL` manager it
returns true, again without a GET and without recording the view.  A fresh object is then
still without image view, so that its `onNetworkReply` changes no image view, whatever
reply it is run with. -/
theorem loadImageToImageView_invalid_url (P : Platform) (self : ImageFromWeb)
    (pImageView : ImageViewPtr) (strImageUrl : QString) (nam : QNetworkAccessManager)
    (h : P.urlIsValid strImageUrl = false) :
    (self.loadImageToImageView P pImageView strImageUrl (some nam)).1 = false ∧
    (self.loadImageToImageView P pImageView strImageUrl (some nam)).2.2 = some nam ∧
    (self.loadImageToImageView P pImageView strImageUrl (some nam)).2.1 = self ∧
    self.loadImageToImageView P pImageView strImageUrl none = (true, self, none) ∧
    (∀ (sender : Option QNetworkReply) (views : ImageViews),
      (ImageFromWeb.new.loadImageToImageView P pImageView strImageUrl (some nam)).2.1.onNetworkReply
        sender views = views) := by
  have hcall : ∀ o : ImageFromWeb,
      o.loadImageToImageView P pImageView strImageUrl (some nam) = (false, o, some nam) := by
    intro o
    simp [ImageFromWeb.loadImageToImageView, h]
  refine ⟨?_, ?_, ?_, rfl, ?_⟩
  · rw [hcall]
  · rw [hcall]
  · rw [hcall]
  · intro sender views
    rw [hcall]
    cases sender with
    | none => rfl
    | some r =>
      simp only [ImageFromWeb.onNetworkReply, ImageFromWeb.new]
      split <;> [split; skip] <;> rfl

theorem loadImageToImageView_invalid_url_witness :
    testPlatform.urlIsValid "" = false ∧
    (ImageFromWeb.new.loadImageToImageView testPlatform (some 1) ""
      (some sampleSettled.m_pNetworkAccessManager)).1 = false ∧
    (ImageFromWeb.new.loadImageToImageView testPlatform (some 1) ""
      (some sampleSettled.m_pNetworkAccessManager)).2.2
      = some sampleSettled.m_pNetworkAccessManager ∧
    (ImageFromWeb.new.loadImageToImageView testPlatform (some 1) ""
      (some sampleSettled.m_pNetworkAccessManager)).2.1 = ImageFromWeb.new :=
  have h := loadImageToImageView_invalid_url testPlatform ImageFromWeb.new (some 1) ""
    sampleSettled.m_pNetworkAccessManager (by decide)
  ⟨by decide, h.1, h.2.1, h.2.2.1⟩

/-- C12 fails without a network access manager: the URL is not valid and the call
returns true. -/
theorem loadImageToImageView_invalid_url_null_manager :
    testPlatform.urlIsValid "" = false ∧
    (ImageFromWeb.new.loadImageToImageView testPlatform (some 1) "" none).1 = true := by
  decide

theorem ImageFromWeb.onNetworkReply_of_bytes (self : ImageFromWeb) (r : QNetworkReply)
    (views : ImageViews) (he : r.error = QNetworkReply.NoError) (hb : 0 < r.buffer.length) :
    self.onNetworkReply (some r) views =
      match self.m_pImageView with
      | some p => views.setImage p { source := r.buffer }
      | none => views := by
  simp [ImageFromWeb.onNetworkReply, he, hb]

theorem ImageFromWeb.onNetworkReply_of_failed (self : ImageFromWeb) (r : QNetworkReply)
    (views : ImageViews) (h : ¬(r.error = QNetworkReply.NoError ∧ 0 < r.buffer.length)) :
    self.onNetworkReply (some r) views = views := by
  by_cases he : r.error = QNetworkReply.NoError
  · have hb : ¬0 < r.buffer.length := fun hb => h ⟨he, hb⟩
    simp [ImageFromWeb.onNetworkReply, he, hb]
  · simp [ImageFromWeb.onNetworkReply, he]

/-- C13: for a finished image reply, `ImageFromWeb::onNetworkReply` leaves the recorded image
view showing the image built from all the bytes of the reply when the reply has no transport
error and more than zero bytes, and showing what it showed before in every other case;
every other image view is left as it is; without a recorded image view, and for every reply
with a transport error or with zero bytes, nothing changes at all.  (The function has no
other output: it returns nothing, emits no signal and writes no member.) -/
theorem imageFromWeb_onNetworkReply_publishes (self : ImageFromWeb) (r : QNetworkReply)
    (views : ImageViews) :
    (∀ p : Nat, self.m_pImageView = some p →
      self.onNetworkReply (some r) views p =
        if r.error = QNetworkReply.NoError ∧ 0 < r.buffer.length then
          some { source := r.buffer }
        else views p) ∧
    (∀ p q : Nat, self.m_pImageView = some p → q ≠ p →
      self.onNetworkReply (some r) views q = views q) ∧
    (self.m_pImageView = none → self.onNetworkReply (some r) views = views) ∧
    (¬(r.error = QNetworkReply.NoError ∧ 0 < r.buffer.length) →
      self.onNetworkReply (some r) views = views) := by
  refine ⟨?_, ?_, ?_, ImageFromWeb.onNetworkReply_of_failed self r views⟩
  · intro p hp
    by_cases hc : r.error = QNetworkReply.NoError ∧ 0 < r.buffer.length
    · rw [ImageFromWeb.onNetworkReply_of_bytes self r views hc.1 hc.2, hp, if_pos hc]
      simp [ImageViews.setImage]
    · rw [ImageFromWeb.onNetworkReply_of_failed self r views hc, if_neg hc]
  · intro p q hp hq
    by_cases hc : r.error = QNetworkReply.NoError ∧ 0 < r.buffer.length
    · rw [ImageFromWeb.onNetworkReply_of_bytes self r views hc.1 hc.2, hp]
      simp [ImageViews.setImage, hq]
    · rw [ImageFromWeb.onNetworkReply_of_failed self r views hc]
  · intro hn
    by_cases hc : r.error = QNetworkReply.NoError ∧ 0 < r.buffer.length
    · rw [ImageFromWeb.onNetworkReply_of_bytes self r views hc.1 hc.2, hn]
    · rw [ImageFromWeb.onNetworkReply_of_failed self r views hc]

/-- The image view at address 1 before and after three replies: bytes without error, bytes
with a transport error, no bytes. -/
theorem imageFromWeb_onNetworkReply_samples :
    sampleViews 1 = some { source := [1, 2, 3] } ∧
    ImageFromWeb.onNetworkReply { m_pImageView := some 1 } (some imageReply) sampleViews 1
      = some { source := [71, 73, 70, 56, 57, 97] } ∧
    ImageFromWeb.onNetworkReply { m_pImageView := some 1 } (some imageReplyNotFound)
      sampleViews 1 = some { source := [1, 2, 3] } ∧
    ImageFromWeb.onNetworkReply { m_pImageView := some 1 } (some emptyReply) sampleViews 1
      = some { source := [1, 2, 3] } ∧
    ImageFromWeb.onNetworkReply { m_pImageView := none } (some imageReply) sampleViews 1
      = some { source := [1, 2, 3] } := by
  decide

theorem imageFromWeb_onNetworkReply_publishes_witness :
    ImageFromWeb.onNetworkReply { m_pImageView := some 1 } (some imageReply) sampleViews 1
      = (if imageReply.error = QNetworkReply.NoError ∧ 0 < imageReply.buffer.length then
          some { source := imageReply.buffer }
        else sampleViews 1) ∧
    imageReply.error = QNetworkReply.NoError ∧ 0 < imageReply.buffer.length :=
  ⟨(imageFromWeb_onNetworkReply_publishes { m_pImageView := some 1 } imageReply sampleViews).1
     1 rfl, by decide, by decide⟩

/-! ## A reply that finishes late -/

theorem weatherFields_eq (s : WeatherDataMgr) :
    s.weatherFields =
      [s.published.weatherDescription, s.published.temperature,
       s.published.temperatureFeelLike, s.published.humidity, s.published.windDirection,
       s.published.windSpeed] :=
  rfl

theorem weatherGets_new (v : ImageViewPtr) : (WeatherDataMgr.new v).weatherGets = 0 :=
  rfl

/-- Two calls and then the two replies, in either order of the replies: the event loop
delivers both, and the state at the end is the one `onNetworkReply` leaves for the reply
that finished last. -/
theorem Running.run_two_requests (P : Platform) (v : ImageViewPtr) (strCityA strCityB : QString)
    (r1 r2 : QNetworkReply)
    (hA : QString.isEmpty (QString.trimmed P strCityA) = false)
    (hB : QString.isEmpty (QString.trimmed P strCityB) = false) :
    Running.run P (Running.start v)
      [Op.request strCityA, Op.request strCityB, Op.finished r1, Op.finished r2] =
      some
        { mgr :=
            ((((WeatherDataMgr.new v).requestWeatherData P strCityA).requestWeatherData P
              strCityB).onNetworkReply P (some r1)).onNetworkReply P (some r2)
          delivered := 2 } := by
  have h2 : (((WeatherDataMgr.new v).requestWeatherData P strCityA).requestWeatherData P
      strCityB).weatherGets = 2 := by
    rw [requestWeatherData_weatherGets_city P _ strCityB hB,
      requestWeatherData_weatherGets_city P _ strCityA hA, weatherGets_new]
  have h3 : ((((WeatherDataMgr.new v).requestWeatherData P strCityA).requestWeatherData P
      strCityB).onNetworkReply P (some r1)).weatherGets = 2 := by
    rw [onNetworkReply_weatherGets, h2]
  simp only [Running.run, Running.step, Running.start, Option.some_bind, h2]
  simp [h3]

/-- C14: for two cities that are not blank and a well-formed reply `rA` to the first, the
sequence `requestWeatherData(A)`, `requestWeatherData(B)`, `onNetworkReply(rB)`,
`onNetworkReply(rA)` ends with the six weather fields holding the texts of `rA`, whatever
the reply `rB` was: the reply to the earlier request is processed like any other. -/
theorem late_reply_overwrites (P : Platform) (v : ImageViewPtr) (strCityA strCityB : QString)
    (rA rB : QNetworkReply) (m : QVariantMap)
    (weather temp_c feelslike_c relative_humidity wind_dir wind_kph : QString)
    (hA : QString.isEmpty (QString.trimmed P strCityA) = false)
    (hB : QString.isEmpty (QString.trimmed P strCityB) = false)
    (he : rA.error = QNetworkReply.NoError) (hb : rA.buffer ≠ [])
    (ht : QString.isEmpty (QString.trimmed P (P.fromByteArray rA.buffer)) = false)
    (hp : P.loadFromBuffer (P.fromByteArray rA.buffer) "/response/current_observation"
      = QVariant.map m)
    (h1 : m.lookup "weather" = some (QVariant.string weather))
    (h2 : m.lookup "temp_c" = some (QVariant.string temp_c))
    (h3 : m.lookup "feelslike_c" = some (QVariant.string feelslike_c))
    (h4 : m.lookup "relative_humidity" = some (QVariant.string relative_humidity))
    (h5 : m.lookup "wind_dir" = some (QVariant.string wind_dir))
    (h6 : m.lookup "wind_kph" = some (QVariant.string wind_kph)) :
    (Running.run P (Running.start v)
      [Op.request strCityA, Op.request strCityB, Op.finished rB, Op.finished rA]).map
      (fun c => c.mgr.weatherFields)
      = some [weather, temp_c, feelslike_c, relative_humidity, wind_dir, wind_kph] := by
  rw [Running.run_two_requests P v strCityA strCityB rB rA hA hB]
  simp only [Option.map_some']
  rw [onNetworkReply_of_text P _ rA he hb ht, weatherFields_eq, extractWeatherData_fields, hp]
  simp only [QVariant.toMap, QVariantMap.value_of_text m _ _ h1,
    QVariantMap.value_of_text m _ _ h2, QVariantMap.value_of_text m _ _ h3,
    QVariantMap.value_of_text m _ _ h4, QVariantMap.value_of_text m _ _ h5,
    QVariantMap.value_of_text m _ _ h6]

set_option maxRecDepth 100000 in
theorem late_reply_overwrites_witness :
    (Running.run testPlatform (Running.start (some 1))
      [Op.request "Bochum", Op.request "Essen", Op.finished sampleReplySnow]).map
      (fun c => c.mgr.weatherFields) = some ["Snow", "-3", "-7", "81%", "East", "17"] ∧
    (Running.run testPlatform (Running.start (some 1))
      [Op.request "Bochum", Op.request "Essen", Op.finished sampleReplySnow,
       Op.finished sampleReply]).map
      (fun c => c.mgr.weatherFields) = some ["Clear", "21", "20", "40%", "NW", "9"] :=
  ⟨by decide,
   late_reply_overwrites testPlatform (some 1) "Bochum" "Essen" sampleReply sampleReplySnow
     sampleObservation "Clear" "21" "20" "40%" "NW" "9" (by decide) (by decide) (by decide)
     (by decide) (by decide) (by rfl) (by rfl) (by rfl) (by rfl) (by rfl) (by rfl) (by rfl)⟩

end ebf
